import Mathlib

/-!
Shallow embedding of the wage-calculator MCP server.

The repository holds two variants of the same ~245-line TypeScript file:
`src/src/index.ts` (embedded here with suffix `_A`) and
`src/unnamed/part_000` (suffix `_B`).  JavaScript `number` arithmetic is
modelled exactly over `ℚ`; decimal literals such as `0.164` denote the
corresponding rationals.  Request payloads are modelled as optional fields
that are either a number or some non-numeric JSON value, mirroring the
untyped `args: any` the validator receives.
-/

/-- A JSON field value as seen by the duck-typed validator: either a number
or some value of another type. -/
inductive JVal where
  | num (q : ℚ)
  | nonNum
deriving DecidableEq

/-- The fields of a payload object that the server ever looks at, plus the
`tax_rate` field mentioned by the spec (which the code never inspects).
`none` models an absent (`undefined`) field. -/
structure RawFields where
  base_salary : Option JVal
  overtime_hours : Option JVal
  overtime_rate : Option JVal
  bonus : Option JVal
  tax_rate : Option JVal
deriving DecidableEq

/-- An untrusted request payload: either not an object (or `null`), or an
object carrying the fields above. -/
inductive Payload where
  | notObject
  | obj (fields : RawFields)
deriving DecidableEq

/-- DEFAULT_VALUES from the source. -/
structure Defaults where
  base_salary : ℚ
  overtime_hours : ℚ
  overtime_rate : ℚ
  bonus : ℚ

/-- `const DEFAULT_VALUES = { base_salary: 10000, overtime_hours: 0,
overtime_rate: 1.5, bonus: 0 }`. -/
def DEFAULT_VALUES : Defaults :=
  { base_salary := 10000, overtime_hours := 0, overtime_rate := 1.5, bonus := 0 }

/-- A personal/company pair of contribution rates. -/
structure RatePair where
  personal : ℚ
  company : ℚ
deriving DecidableEq

/-- The five contribution categories of `SOCIAL_INSURANCE_RATES`. -/
structure InsuranceRates where
  pension : RatePair
  unemployment : RatePair
  injury : RatePair
  medical : RatePair
  housingFund : RatePair
deriving DecidableEq

/-- `SOCIAL_INSURANCE_RATES` from the source (both variants agree). -/
def SOCIAL_INSURANCE_RATES : InsuranceRates :=
  { pension := { personal := 0.08, company := 0.16 }
    unemployment := { personal := 0.004, company := 0.006 }
    injury := { personal := 0, company := 0.0156 }
    medical := { personal := 0.02, company := 0.07 }
    housingFund := { personal := 0.06, company := 0.06 } }

/-- `const BASE_SOCIAL_INSURANCE = 59469` (declared but unused by the handlers). -/
def BASE_SOCIAL_INSURANCE : ℚ := 59469

/-- `args.base_salary === undefined || (typeof args.base_salary === 'number'
&& args.base_salary > 0)`. -/
def checkBaseSalary : Option JVal → Bool
  | none => true
  | some (JVal.num q) => decide (0 < q)
  | some JVal.nonNum => false

/-- `args.overtime_hours === undefined || (typeof ... === 'number' && ... >= 0)`. -/
def checkOvertimeHours : Option JVal → Bool
  | none => true
  | some (JVal.num q) => decide (0 ≤ q)
  | some JVal.nonNum => false

/-- `args.overtime_rate === undefined || typeof args.overtime_rate === 'number'`
(no range constraint at all). -/
def checkOvertimeRate : Option JVal → Bool
  | none => true
  | some (JVal.num _) => true
  | some JVal.nonNum => false

/-- `args.bonus === undefined || (typeof args.bonus === 'number' && args.bonus >= 0)`. -/
def checkBonus : Option JVal → Bool
  | none => true
  | some (JVal.num q) => decide (0 ≤ q)
  | some JVal.nonNum => false

/-- `isValidWageArgs` from the source: the payload must be a non-null object
and the four known fields must each pass their check.  Note that `tax_rate`
is never inspected. -/
def isValidWageArgs : Payload → Bool
  | Payload.notObject => false
  | Payload.obj f =>
      checkBaseSalary f.base_salary &&
      checkOvertimeHours f.overtime_hours &&
      checkOvertimeRate f.overtime_rate &&
      checkBonus f.bonus

/-- `calculateIndividualIncomeTax` of `src/src/index.ts`: takes the monthly
income, subtracts the 5000 allowance internally and applies its bracket
table. -/
def calculateIndividualIncomeTax_A (monthlyIncome : ℚ) : ℚ :=
  let Y := monthlyIncome - 5000
  if Y ≤ 0 then 0
  else if Y ≤ 5000 then Y * 0.03
  else if Y ≤ 12000 then Y * 0.1 - 210
  else if Y ≤ 25000 then Y * 0.15 - 1410
  else if Y ≤ 35000 then Y * 0.2 - 2660
  else if Y ≤ 55000 then Y * 0.25 - 4410
  else if Y ≤ 80000 then Y * 0.3 - 7160
  else Y * 0.35 - 15160

/-- `calculateIndividualIncomeTax` of `src/unnamed/part_000`: takes the
taxable income directly and applies the standard bracket table. -/
def calculateIndividualIncomeTax_B (taxableIncome : ℚ) : ℚ :=
  if taxableIncome ≤ 0 then 0
  else if taxableIncome ≤ 3000 then taxableIncome * 0.03
  else if taxableIncome ≤ 12000 then taxableIncome * 0.10 - 210
  else if taxableIncome ≤ 25000 then taxableIncome * 0.20 - 1410
  else if taxableIncome ≤ 35000 then taxableIncome * 0.25 - 2660
  else if taxableIncome ≤ 55000 then taxableIncome * 0.30 - 4410
  else if taxableIncome ≤ 80000 then taxableIncome * 0.35 - 7160
  else taxableIncome * 0.45 - 15160

/-- Per-category personal/company contribution amounts. -/
structure CatAmount where
  personal : ℚ
  company : ℚ
deriving DecidableEq

/-- Return value of `calculateSocialInsurance`. -/
structure SIResult where
  pension : CatAmount
  unemployment : CatAmount
  injury : CatAmount
  medical : CatAmount
  housingFund : CatAmount
  personalTotal : ℚ
  companyTotal : ℚ
deriving DecidableEq

/-- `calculateSocialInsurance` from the source (identical in both variants;
defined in the file but not called by the request handler): per-category
amounts from `SOCIAL_INSURANCE_RATES`, with the totals obtained by summing
over the categories. -/
def calculateSocialInsurance (base : ℚ) : SIResult :=
  let pension : CatAmount :=
    ⟨base * SOCIAL_INSURANCE_RATES.pension.personal, base * SOCIAL_INSURANCE_RATES.pension.company⟩
  let unemployment : CatAmount :=
    ⟨base * SOCIAL_INSURANCE_RATES.unemployment.personal, base * SOCIAL_INSURANCE_RATES.unemployment.company⟩
  let injury : CatAmount :=
    ⟨base * SOCIAL_INSURANCE_RATES.injury.personal, base * SOCIAL_INSURANCE_RATES.injury.company⟩
  let medical : CatAmount :=
    ⟨base * SOCIAL_INSURANCE_RATES.medical.personal, base * SOCIAL_INSURANCE_RATES.medical.company⟩
  let housingFund : CatAmount :=
    ⟨base * SOCIAL_INSURANCE_RATES.housingFund.personal, base * SOCIAL_INSURANCE_RATES.housingFund.company⟩
  let vals : List CatAmount := [pension, unemployment, injury, medical, housingFund]
  let personalTotal := vals.foldl (fun s item => s + item.personal) 0
  let companyTotal := vals.foldl (fun s item => s + item.company) 0
  ⟨pension, unemployment, injury, medical, housingFund, personalTotal, companyTotal⟩

/-- The `personal_insurance` record of the result. -/
structure PersonalInsurance where
  pension : ℚ
  unemployment : ℚ
  injury : ℚ
  medical : ℚ
  housing_fund : ℚ
  total_personal : ℚ
deriving DecidableEq

/-- The `company_insurance` record of the result. -/
structure CompanyInsurance where
  pension : ℚ
  unemployment : ℚ
  injury : ℚ
  medical : ℚ
  housing_fund : ℚ
  total_company : ℚ
deriving DecidableEq

/-- The `result` object serialized back to the caller. -/
structure WageResult where
  basic : ℚ
  overtime_pay : ℚ
  bonus : ℚ
  total_monthly_salary : ℚ
  pre_tax_salary : ℚ
  insurance_base : ℚ
  personal_insurance : PersonalInsurance
  company_insurance : CompanyInsurance
  taxable_income : ℚ
  individual_income_tax : ℚ
  net_salary : ℚ
deriving DecidableEq

/-- The wage computation of the `calculate_wage` handler in
`src/src/index.ts`, lines 160-223. -/
def computeWage_A (baseSalary overtimeHours overtimeRate bonus : ℚ) : WageResult :=
  let totalMonthlySalary := baseSalary + (overtimeHours * (baseSalary / 21.75) * overtimeRate) + bonus
  let insuranceBase := baseSalary
  let personalInsuranceTotal := insuranceBase * 0.164
  let companyInsuranceTotal := insuranceBase * 0.3156
  let preTaxSalary := totalMonthlySalary - personalInsuranceTotal
  let taxableIncome := preTaxSalary - 5000
  let incomeTax := if 0 < taxableIncome then calculateIndividualIncomeTax_A preTaxSalary else 0
  let netSalary := preTaxSalary - incomeTax
  { basic := baseSalary
    overtime_pay := overtimeHours * (baseSalary / 21.75) * overtimeRate
    bonus := bonus
    total_monthly_salary := totalMonthlySalary
    pre_tax_salary := preTaxSalary
    insurance_base := insuranceBase
    personal_insurance :=
      { pension := insuranceBase * 0.08
        unemployment := insuranceBase * 0.004
        injury := insuranceBase * 0
        medical := insuranceBase * 0.02
        housing_fund := insuranceBase * 0.06
        total_personal := personalInsuranceTotal }
    company_insurance :=
      { pension := insuranceBase * 0.16
        unemployment := insuranceBase * 0.006
        injury := insuranceBase * 0.0156
        medical := insuranceBase * 0.07
        housing_fund := insuranceBase * 0.06
        total_company := companyInsuranceTotal }
    taxable_income := taxableIncome
    individual_income_tax := incomeTax
    net_salary := netSalary }

/-- The wage computation of the `calculate_wage` handler in
`src/unnamed/part_000`, lines 158-224: hourly rate uses `20 * 8` standard
hours, `pre_tax_salary` keeps the contributions in, and the tax is applied
to the taxable income directly. -/
def computeWage_B (baseSalary overtimeHours overtimeRate bonus : ℚ) : WageResult :=
  let hourlyRate := baseSalary / (20 * 8)
  let overtimePayAmount := overtimeHours * hourlyRate * overtimeRate
  let totalMonthlySalary := baseSalary + overtimePayAmount + bonus
  let insuranceBase := baseSalary
  let personalInsuranceTotal := insuranceBase * 0.164
  let companyInsuranceTotal := insuranceBase * 0.3156
  let preTaxSalary := totalMonthlySalary
  let taxableIncome := preTaxSalary - personalInsuranceTotal - 5000
  let incomeTax := if 0 < taxableIncome then calculateIndividualIncomeTax_B taxableIncome else 0
  let netSalary := preTaxSalary - personalInsuranceTotal - incomeTax
  { basic := baseSalary
    overtime_pay := overtimePayAmount
    bonus := bonus
    total_monthly_salary := totalMonthlySalary
    pre_tax_salary := preTaxSalary
    insurance_base := insuranceBase
    personal_insurance :=
      { pension := insuranceBase * 0.08
        unemployment := insuranceBase * 0.004
        injury := insuranceBase * 0
        medical := insuranceBase * 0.02
        housing_fund := insuranceBase * 0.06
        total_personal := personalInsuranceTotal }
    company_insurance :=
      { pension := insuranceBase * 0.16
        unemployment := insuranceBase * 0.006
        injury := insuranceBase * 0.0156
        medical := insuranceBase * 0.07
        housing_fund := insuranceBase * 0.06
        total_company := companyInsuranceTotal }
    taxable_income := taxableIncome
    individual_income_tax := incomeTax
    net_salary := netSalary }

/-- The two MCP error codes the server can raise. -/
inductive McpErrorCode where
  | MethodNotFound
  | InvalidParams
deriving DecidableEq

/-- Outcome of one `CallTool` request: an MCP error or a serialized result. -/
inductive CallOutcome where
  | err (e : McpErrorCode)
  | ok (r : WageResult)
deriving DecidableEq

/-- `args.field ?? DEFAULT_VALUES.field`: a present numeric field wins,
otherwise the default is used. -/
def getNum (d : ℚ) : Option JVal → ℚ
  | some (JVal.num q) => q
  | _ => d

/-- The `CallToolRequestSchema` handler of `src/src/index.ts`: unknown tool
name → `MethodNotFound`; invalid arguments → `InvalidParams`; otherwise the
wage breakdown computed from the defaulted arguments.  (The `notObject` arm
after validation is unreachable since `isValidWageArgs` already rejected it.) -/
def handleCallTool_A (name : String) (p : Payload) : CallOutcome :=
  if name ≠ "calculate_wage" then CallOutcome.err McpErrorCode.MethodNotFound
  else if isValidWageArgs p = false then CallOutcome.err McpErrorCode.InvalidParams
  else
    match p with
    | Payload.notObject => CallOutcome.err McpErrorCode.InvalidParams
    | Payload.obj f =>
        CallOutcome.ok (computeWage_A
          (getNum DEFAULT_VALUES.base_salary f.base_salary)
          (getNum DEFAULT_VALUES.overtime_hours f.overtime_hours)
          (getNum DEFAULT_VALUES.overtime_rate f.overtime_rate)
          (getNum DEFAULT_VALUES.bonus f.bonus))

/-- The `CallToolRequestSchema` handler of `src/unnamed/part_000` (identical
except that it computes with variant B's formulas). -/
def handleCallTool_B (name : String) (p : Payload) : CallOutcome :=
  if name ≠ "calculate_wage" then CallOutcome.err McpErrorCode.MethodNotFound
  else if isValidWageArgs p = false then CallOutcome.err McpErrorCode.InvalidParams
  else
    match p with
    | Payload.notObject => CallOutcome.err McpErrorCode.InvalidParams
    | Payload.obj f =>
        CallOutcome.ok (computeWage_B
          (getNum DEFAULT_VALUES.base_salary f.base_salary)
          (getNum DEFAULT_VALUES.overtime_hours f.overtime_hours)
          (getNum DEFAULT_VALUES.overtime_rate f.overtime_rate)
          (getNum DEFAULT_VALUES.bonus f.bonus))

/-- The contribution-rate constants hard-coded in the variant-A handler,
abstracted so that the hypothetical in which every rate is zero can be
stated. -/
structure RateConfig where
  personalTotalRate : ℚ
  companyTotalRate : ℚ
  pensionPersonal : ℚ
  unemploymentPersonal : ℚ
  injuryPersonal : ℚ
  medicalPersonal : ℚ
  housingPersonal : ℚ
  pensionCompany : ℚ
  unemploymentCompany : ℚ
  injuryCompany : ℚ
  medicalCompany : ℚ
  housingCompany : ℚ

/-- The rates actually hard-coded in `src/src/index.ts`. -/
def codeRateConfig_A : RateConfig :=
  ⟨0.164, 0.3156, 0.08, 0.004, 0, 0.02, 0.06, 0.16, 0.006, 0.0156, 0.07, 0.06⟩

/-- Every rate set to zero, for the counterfactual of spec §8. -/
def zeroRateConfig : RateConfig :=
  ⟨0, 0, 0, 0, 0, 0, 0, 0, 0, 0, 0, 0⟩

/-- `computeWage_A` with its contribution rates and tax function abstracted;
`computeWage_A` is recovered at `codeRateConfig_A` and
`calculateIndividualIncomeTax_A` (see `computeWage_A_eq_withRates`). -/
def computeWage_A_withRates (R : RateConfig) (taxf : ℚ → ℚ)
    (baseSalary overtimeHours overtimeRate bonus : ℚ) : WageResult :=
  let totalMonthlySalary := baseSalary + (overtimeHours * (baseSalary / 21.75) * overtimeRate) + bonus
  let insuranceBase := baseSalary
  let personalInsuranceTotal := insuranceBase * R.personalTotalRate
  let companyInsuranceTotal := insuranceBase * R.companyTotalRate
  let preTaxSalary := totalMonthlySalary - personalInsuranceTotal
  let taxableIncome := preTaxSalary - 5000
  let incomeTax := if 0 < taxableIncome then taxf preTaxSalary else 0
  let netSalary := preTaxSalary - incomeTax
  { basic := baseSalary
    overtime_pay := overtimeHours * (baseSalary / 21.75) * overtimeRate
    bonus := bonus
    total_monthly_salary := totalMonthlySalary
    pre_tax_salary := preTaxSalary
    insurance_base := insuranceBase
    personal_insurance :=
      { pension := insuranceBase * R.pensionPersonal
        unemployment := insuranceBase * R.unemploymentPersonal
        injury := insuranceBase * R.injuryPersonal
        medical := insuranceBase * R.medicalPersonal
        housing_fund := insuranceBase * R.housingPersonal
        total_personal := personalInsuranceTotal }
    company_insurance :=
      { pension := insuranceBase * R.pensionCompany
        unemployment := insuranceBase * R.unemploymentCompany
        injury := insuranceBase * R.injuryCompany
        medical := insuranceBase * R.medicalCompany
        housing_fund := insuranceBase * R.housingCompany
        total_company := companyInsuranceTotal }
    taxable_income := taxableIncome
    individual_income_tax := incomeTax
    net_salary := netSalary }

lemma computeWage_A_eq_withRates (b o r bo : ℚ) :
    computeWage_A b o r bo =
      computeWage_A_withRates codeRateConfig_A calculateIndividualIncomeTax_A b o r bo := rfl

lemma taxA_nonneg (x : ℚ) : 0 ≤ calculateIndividualIncomeTax_A x := by
  simp only [calculateIndividualIncomeTax_A]
  split_ifs <;> linarith

lemma taxB_nonneg (x : ℚ) : 0 ≤ calculateIndividualIncomeTax_B x := by
  simp only [calculateIndividualIncomeTax_B]
  split_ifs <;> linarith

/-- C2: the variant-A bracket table is NOT continuous at its boundaries: at
the monthly income 17000 (taxable 12000, a bracket boundary), moving the
income up by 0.01 makes the computed tax drop by almost 600 — far beyond any
rounding epsilon.  The quick-deduction constants in `src/src/index.ts` are
mismatched with its thresholds and rates. -/
theorem C2_bracket_discontinuity_A :
    calculateIndividualIncomeTax_A 17000 = 990 ∧
    calculateIndividualIncomeTax_A (17000 + 1 / 100) = 780003 / 2000 ∧
    599 < calculateIndividualIncomeTax_A 17000 -
        calculateIndividualIncomeTax_A (17000 + 1 / 100) := by
  norm_num [calculateIndividualIncomeTax_A]

/-- C3: the variant-A tax function is NOT monotonically non-decreasing:
income 17000 ≤ 17001, yet the tax at 17001 (390.15) is strictly below the
tax at 17000 (990). -/
theorem C3_tax_not_monotone_A :
    (17000 : ℚ) ≤ 17001 ∧
    calculateIndividualIncomeTax_A 17000 = 990 ∧
    calculateIndividualIncomeTax_A 17001 = 7803 / 20 ∧
    calculateIndividualIncomeTax_A 17001 < calculateIndividualIncomeTax_A 17000 := by
  norm_num [calculateIndividualIncomeTax_A]

/-- C4: at insurance base 10000 the reported personal total (1640) does equal
the sum of its per-category personal components, but the reported company
total (3156, from the hard-coded 0.3156) does NOT equal the sum of the
per-category company components (3116); the repository's own
`calculateSocialInsurance` sums the categories and gets 3116. -/
theorem C4_company_total_mismatch :
    ((computeWage_A 10000 0 1.5 0).personal_insurance.total_personal =
        (computeWage_A 10000 0 1.5 0).personal_insurance.pension +
          (computeWage_A 10000 0 1.5 0).personal_insurance.unemployment +
          (computeWage_A 10000 0 1.5 0).personal_insurance.injury +
          (computeWage_A 10000 0 1.5 0).personal_insurance.medical +
          (computeWage_A 10000 0 1.5 0).personal_insurance.housing_fund) ∧
    (computeWage_A 10000 0 1.5 0).company_insurance.pension +
        (computeWage_A 10000 0 1.5 0).company_insurance.unemployment +
        (computeWage_A 10000 0 1.5 0).company_insurance.injury +
        (computeWage_A 10000 0 1.5 0).company_insurance.medical +
        (computeWage_A 10000 0 1.5 0).company_insurance.housing_fund = 3116 ∧
    (computeWage_A 10000 0 1.5 0).company_insurance.total_company = 3156 ∧
    (calculateSocialInsurance 10000).companyTotal = 3116 ∧
    (computeWage_A 10000 0 1.5 0).company_insurance.total_company ≠
      (computeWage_A 10000 0 1.5 0).company_insurance.pension +
        (computeWage_A 10000 0 1.5 0).company_insurance.unemployment +
        (computeWage_A 10000 0 1.5 0).company_insurance.injury +
        (computeWage_A 10000 0 1.5 0).company_insurance.medical +
        (computeWage_A 10000 0 1.5 0).company_insurance.housing_fund := by
  norm_num [computeWage_A, calculateSocialInsurance, SOCIAL_INSURANCE_RATES]

/-- C1 counterexample: at base_salary 10000, overtime 0 and bonus 1000 the
reported taxable income is 4360, while base_salary + overtime_pay −
personal_contribution_total − 5000 is 3360: the claim's taxable-income
formula (which omits the bonus) does not match the code. -/
theorem C1_taxable_income_cex :
    (computeWage_A 10000 0 1.5 1000).taxable_income = 4360 ∧
    (computeWage_A 10000 0 1.5 1000).basic + (computeWage_A 10000 0 1.5 1000).overtime_pay -
        (computeWage_A 10000 0 1.5 1000).personal_insurance.total_personal - 5000 = 3360 ∧
    (4360 : ℚ) ≠ 3360 := by
  norm_num [computeWage_A]

/-- C1 amended: in both variants the reported taxable income is base_salary +
overtime_pay + bonus − personal_contribution_total − 5000 (the bonus is part
of the tax base), the reported net salary is base_salary + overtime_pay +
bonus − personal_contribution_total − tax, and the tax is computed on exactly
the reported taxable income (variant A's bracket function receives
taxable_income + 5000 and subtracts the 5000 again internally; variant B's
receives taxable_income directly), so the two formulas share one tax base and
contributions are subtracted exactly once. -/
theorem C1_model_consistency_amended (b o r bo : ℚ) :
    ((computeWage_A b o r bo).taxable_income =
        (computeWage_A b o r bo).basic + (computeWage_A b o r bo).overtime_pay +
          (computeWage_A b o r bo).bonus -
          (computeWage_A b o r bo).personal_insurance.total_personal - 5000) ∧
    ((computeWage_A b o r bo).net_salary =
        (computeWage_A b o r bo).basic + (computeWage_A b o r bo).overtime_pay +
          (computeWage_A b o r bo).bonus -
          (computeWage_A b o r bo).personal_insurance.total_personal -
          (computeWage_A b o r bo).individual_income_tax) ∧
    ((computeWage_A b o r bo).individual_income_tax =
        if 0 < (computeWage_A b o r bo).taxable_income then
          calculateIndividualIncomeTax_A ((computeWage_A b o r bo).taxable_income + 5000)
        else 0) ∧
    ((computeWage_B b o r bo).taxable_income =
        (computeWage_B b o r bo).basic + (computeWage_B b o r bo).overtime_pay +
          (computeWage_B b o r bo).bonus -
          (computeWage_B b o r bo).personal_insurance.total_personal - 5000) ∧
    ((computeWage_B b o r bo).net_salary =
        (computeWage_B b o r bo).basic + (computeWage_B b o r bo).overtime_pay +
          (computeWage_B b o r bo).bonus -
          (computeWage_B b o r bo).personal_insurance.total_personal -
          (computeWage_B b o r bo).individual_income_tax) ∧
    ((computeWage_B b o r bo).individual_income_tax =
        if 0 < (computeWage_B b o r bo).taxable_income then
          calculateIndividualIncomeTax_B ((computeWage_B b o r bo).taxable_income)
        else 0) := by
  have e : ∀ x : ℚ, x - 5000 + 5000 = x := fun x => by ring
  refine ⟨rfl, rfl, ?_, rfl, rfl, rfl⟩
  simp only [computeWage_A]
  rw [e]

/-- C5 counterexample: the empty payload (every field absent, in particular
base_salary) is accepted by the validator and the handler returns a computed
breakdown at the default base salary 10000 — not an InvalidParams error. -/
theorem C5_missing_base_salary_cex :
    handleCallTool_A "calculate_wage" (Payload.obj ⟨none, none, none, none, none⟩) =
      CallOutcome.ok (computeWage_A 10000 0 1.5 0) ∧
    handleCallTool_A "calculate_wage" (Payload.obj ⟨none, none, none, none, none⟩) ≠
      CallOutcome.err McpErrorCode.InvalidParams := by
  constructor
  · rfl
  · intro h
    simp [handleCallTool_A, isValidWageArgs, checkBaseSalary, checkOvertimeHours,
      checkOvertimeRate, checkBonus, getNum, DEFAULT_VALUES] at h

/-- C5 amended: a payload whose base_salary field is absent is not rejected;
if its remaining fields pass validation, the handler substitutes the
documented default 10000 and returns the computed breakdown. -/
theorem C5_default_substitution_amended (f : RawFields)
    (h0 : f.base_salary = none)
    (hv : isValidWageArgs (Payload.obj f) = true) :
    handleCallTool_A "calculate_wage" (Payload.obj f) =
      CallOutcome.ok (computeWage_A 10000
        (getNum 0 f.overtime_hours) (getNum 1.5 f.overtime_rate) (getNum 0 f.bonus)) := by
  unfold handleCallTool_A
  rw [if_neg (by simp), if_neg (by simp [hv])]
  simp only [getNum, DEFAULT_VALUES, h0]

theorem C5_default_substitution_witness :
    (RawFields.mk none none none none none).base_salary = none ∧
    isValidWageArgs (Payload.obj (RawFields.mk none none none none none)) = true ∧
    handleCallTool_A "calculate_wage" (Payload.obj (RawFields.mk none none none none none)) =
      CallOutcome.ok (computeWage_A 10000 (getNum 0 none) (getNum 1.5 none) (getNum 0 none)) :=
  ⟨rfl, by decide, C5_default_substitution_amended ⟨none, none, none, none, none⟩ rfl (by decide)⟩

/-- C6 counterexample: a payload carrying tax_rate = 1.5 (with an otherwise
valid base_salary of 10000) is NOT rejected: the validator never inspects
tax_rate, so the handler computes a breakdown instead of raising
InvalidParams. -/
theorem C6_tax_rate_accepted_cex :
    handleCallTool_A "calculate_wage"
        (Payload.obj ⟨some (JVal.num 10000), none, none, none, some (JVal.num 1.5)⟩) =
      CallOutcome.ok (computeWage_A 10000 0 1.5 0) ∧
    handleCallTool_A "calculate_wage"
        (Payload.obj ⟨some (JVal.num 10000), none, none, none, some (JVal.num 1.5)⟩) ≠
      CallOutcome.err McpErrorCode.InvalidParams := by
  have h : handleCallTool_A "calculate_wage"
      (Payload.obj ⟨some (JVal.num 10000), none, none, none, some (JVal.num 1.5)⟩) =
      CallOutcome.ok (computeWage_A 10000 0 1.5 0) := rfl
  exact ⟨h, by rw [h]; intro hc; cases hc⟩

/-- C6 amended: payloads with base_salary = 0, base_salary = −100 or
overtime_hours = −1 each fail validation and receive InvalidParams with no
breakdown computed; but tax_rate is outside the validated schema, so a
payload with tax_rate = 1.5 and otherwise valid fields is accepted and a
breakdown is computed. -/
theorem C6_validation_amended :
    handleCallTool_A "calculate_wage"
        (Payload.obj ⟨some (JVal.num 0), none, none, none, none⟩) =
      CallOutcome.err McpErrorCode.InvalidParams ∧
    handleCallTool_A "calculate_wage"
        (Payload.obj ⟨some (JVal.num (-100)), none, none, none, none⟩) =
      CallOutcome.err McpErrorCode.InvalidParams ∧
    handleCallTool_A "calculate_wage"
        (Payload.obj ⟨some (JVal.num 10000), some (JVal.num (-1)), none, none, none⟩) =
      CallOutcome.err McpErrorCode.InvalidParams ∧
    handleCallTool_A "calculate_wage"
        (Payload.obj ⟨some (JVal.num 10000), none, none, none, some (JVal.num 1.5)⟩) =
      CallOutcome.ok (computeWage_A 10000 0 1.5 0) := by
  exact ⟨rfl, rfl, rfl, rfl⟩

/-- C7: for any base_salary > 0 with zero overtime hours and zero bonus, both
variants pay out strictly less than the gross monthly salary (the code's
personal contribution rate 0.164 is positive and the tax is never negative);
and in the rate-abstracted computation with every contribution rate zero and
a zero tax function, the net salary equals the gross salary. -/
theorem C7_net_lt_gross (base rate : ℚ) (h : 0 < base) :
    (computeWage_A base 0 rate 0).net_salary < (computeWage_A base 0 rate 0).total_monthly_salary ∧
    (computeWage_B base 0 rate 0).net_salary < (computeWage_B base 0 rate 0).total_monthly_salary ∧
    (computeWage_A_withRates zeroRateConfig (fun _ => 0) base 0 rate 0).net_salary =
      (computeWage_A_withRates zeroRateConfig (fun _ => 0) base 0 rate 0).total_monthly_salary := by
  refine ⟨?_, ?_, ?_⟩
  · have h1 := taxA_nonneg (base + 0 * (base / 21.75) * rate + 0 - base * 0.164)
    simp only [computeWage_A]
    split_ifs with h2 <;> linarith
  · have h1 := taxB_nonneg (base + 0 * (base / (20 * 8)) * rate + 0 - base * 0.164 - 5000)
    simp only [computeWage_B]
    split_ifs with h2 <;> linarith
  · simp only [computeWage_A_withRates, zeroRateConfig]
    split_ifs <;> ring

theorem C7_net_lt_gross_witness :
    (0 : ℚ) < 10000 ∧
    ((computeWage_A 10000 0 1.5 0).net_salary <
        (computeWage_A 10000 0 1.5 0).total_monthly_salary ∧
      (computeWage_B 10000 0 1.5 0).net_salary <
        (computeWage_B 10000 0 1.5 0).total_monthly_salary ∧
      (computeWage_A_withRates zeroRateConfig (fun _ => 0) 10000 0 1.5 0).net_salary =
        (computeWage_A_withRates zeroRateConfig (fun _ => 0) 10000 0 1.5 0).total_monthly_salary) :=
  ⟨by norm_num, C7_net_lt_gross 10000 1.5 (by norm_num)⟩

/-- C8: the two variants are not extensionally equal.  At base_salary 10000
with 87 overtime hours at rate 2, variant A (divisor 21.75) reports overtime
pay 80000 while variant B (divisor 160) reports 10875, so the breakdowns
differ; and at base_salary 30000 with no overtime the two tax tables alone
already produce different taxes (1602 versus 2606). -/
theorem C8_variants_differ :
    (computeWage_A 10000 87 2 0).overtime_pay = 80000 ∧
    (computeWage_B 10000 87 2 0).overtime_pay = 10875 ∧
    computeWage_A 10000 87 2 0 ≠ computeWage_B 10000 87 2 0 ∧
    (computeWage_A 30000 0 1.5 0).individual_income_tax = 1602 ∧
    (computeWage_B 30000 0 1.5 0).individual_income_tax = 2606 ∧
    (computeWage_A 30000 0 1.5 0).individual_income_tax ≠
      (computeWage_B 30000 0 1.5 0).individual_income_tax := by
  have hA : (computeWage_A 10000 87 2 0).overtime_pay = 80000 := by
    norm_num [computeWage_A]
  have hB : (computeWage_B 10000 87 2 0).overtime_pay = 10875 := by
    norm_num [computeWage_B]
  have htA : (computeWage_A 30000 0 1.5 0).individual_income_tax = 1602 := by
    norm_num [computeWage_A, calculateIndividualIncomeTax_A]
  have htB : (computeWage_B 30000 0 1.5 0).individual_income_tax = 2606 := by
    norm_num [computeWage_B, calculateIndividualIncomeTax_B]
  refine ⟨hA, hB, ?_, htA, htB, ?_⟩
  · intro hEq
    have := congrArg WageResult.overtime_pay hEq
    rw [hA, hB] at this
    norm_num at this
  · rw [htA, htB]
    norm_num

/-- C9: any request whose tool name is not "calculate_wage" receives the
MethodNotFound error from both variants, whatever the payload, and no wage
result is produced. -/
theorem C9_unknown_tool (name : String) (p : Payload) (h : name ≠ "calculate_wage") :
    handleCallTool_A name p = CallOutcome.err McpErrorCode.MethodNotFound ∧
    handleCallTool_B name p = CallOutcome.err McpErrorCode.MethodNotFound := by
  constructor
  · unfold handleCallTool_A
    rw [if_pos h]
  · unfold handleCallTool_B
    rw [if_pos h]

theorem C9_unknown_tool_witness :
    "get_weather" ≠ "calculate_wage" ∧
    (handleCallTool_A "get_weather" Payload.notObject =
        CallOutcome.err McpErrorCode.MethodNotFound ∧
      handleCallTool_B "get_weather" Payload.notObject =
        CallOutcome.err McpErrorCode.MethodNotFound) :=
  ⟨by decide, C9_unknown_tool "get_weather" Payload.notObject (by decide)⟩

/-- C10: the validator accepts overtime_rate = 0 and overtime_rate = −1 even
though the advertised schema says minimum 1; with overtime_rate = −1 and 10
overtime hours the computed overtime pay is negative (−400000/87), the net
salary is strictly below the net salary with zero overtime hours, and the
handler still answers with a computed breakdown rather than an error. -/
theorem C10_overtime_rate_unchecked :
    isValidWageArgs (Payload.obj
        ⟨some (JVal.num 10000), some (JVal.num 10), some (JVal.num 0), none, none⟩) = true ∧
    isValidWageArgs (Payload.obj
        ⟨some (JVal.num 10000), some (JVal.num 10), some (JVal.num (-1)), none, none⟩) = true ∧
    (computeWage_A 10000 10 (-1) 0).overtime_pay < 0 ∧
    (computeWage_A 10000 10 (-1) 0).net_salary < (computeWage_A 10000 0 (-1) 0).net_salary ∧
    handleCallTool_A "calculate_wage" (Payload.obj
        ⟨some (JVal.num 10000), some (JVal.num 10), some (JVal.num (-1)), none, none⟩) =
      CallOutcome.ok (computeWage_A 10000 10 (-1) 0) := by
  refine ⟨by decide, by decide, ?_, ?_, rfl⟩
  · norm_num [computeWage_A]
  · norm_num [computeWage_A, calculateIndividualIncomeTax_A]
